import Mathlib

/-!
Shallow embedding of `src/api/chrome.js` from the github-snooze-chrome-extension
repository: the snooze-registry and badge-counter subsystem.

Modelling choices, all taken from the JavaScript source:

* The synced key-value store (`chrome.storage.sync`) holds per-user snooze
  lists under the user id key and the badge counter under the `badgeCounter`
  key (the destructuring `let { badgeCounter } = ...` in `getBadgeCounter`
  fixes that key name).  The model keeps the two kinds of entries in separate
  fields of a `World` record and assumes a user id never equals the literal
  key `badgeCounter`.
* Effects besides the store are recorded in the `World` as well: the list of
  writes to the `badgeCounter` key (`counterWrites`, needed to observe whether
  a read wrote back), the log of messages sent to the background worker
  (`messages`), and the visible badge UI (`badgeText`, `badgeColor`).
* JavaScript numbers are modelled as `Int` (all values involved are integral),
  and `Array.prototype.sort`, which is stable with the comparator
  `(x, y) => x.notifyAt - y.notifyAt`, is modelled by a stable insertion sort
  ascending by `notifyAt`.
* Asynchrony is irrelevant to the claims (each operation is a single
  sequential composition of awaited calls), so operations are pure state
  transformers `World → result × World`.
-/

/-- A snooze record as stored in the synced store.  The JavaScript objects may
carry further caller-defined fields, which all operations pass through
opaquely; the model keeps the four fields the code reads. -/
structure SnoozeRecord where
  id : String
  url : String
  notifyAt : Int
  badgeCount : Bool
deriving DecidableEq, Repr

/-- The comparator `(x, y) => x.notifyAt - y.notifyAt` used with
`Array.prototype.sort`: ascending order of `notifyAt`. -/
def notifyLe (x y : SnoozeRecord) : Bool :=
  x.notifyAt ≤ y.notifyAt

/-- Stable insertion of a record into a list sorted ascending by `notifyAt`:
the record goes in front of the first element it compares `≤` to, so an
element never jumps over an equal one. -/
def insertByNotifyAt (x : SnoozeRecord) : List SnoozeRecord → List SnoozeRecord
  | [] => [x]
  | y :: ys => if notifyLe x y then x :: y :: ys else y :: insertByNotifyAt x ys

/-- Model of `list.sort((x, y) => x.notifyAt - y.notifyAt)`: ECMAScript mandates a
stable sort, modelled as stable insertion sort ascending by `notifyAt`. -/
def sortByNotifyAt : List SnoozeRecord → List SnoozeRecord
  | [] => []
  | x :: xs => insertByNotifyAt x (sortByNotifyAt xs)

/-- Boolean test that a list is sorted ascending by `notifyAt` (each element
at most its successor). -/
def sortedByNotifyAt : List SnoozeRecord → Bool
  | [] => true
  | [_] => true
  | x :: y :: rest => notifyLe x y && sortedByNotifyAt (y :: rest)

/-- The state every operation of `chrome.js` reads and writes: the synced
store (per-user lists and the `badgeCounter` key), plus the observable effect
logs described in the module docstring. -/
structure World where
  sync : String → Option (List SnoozeRecord)
  badgeCounter : Option Int
  counterWrites : List Int
  messages : List (String × Int)
  badgeText : String
  badgeColor : Option String

/-- Modelled from the spec: the action tag `ACTION_UPDATE_BADGE_COUNTER`
imported from `../constants` (a file not under `src/`); the spec only says a
badge-update message is sent, so the tag is an opaque string. -/
def ACTION_UPDATE_BADGE_COUNTER : String :=
  "ACTION_UPDATE_BADGE_COUNTER"

/-- Modelled from the spec: the fixed secondary badge background color
`COLOR_SECONDARY` imported from `../constants` (not under `src/`); its actual
value is irrelevant to the claims. -/
def COLOR_SECONDARY : String :=
  "COLOR_SECONDARY"

/-- Model of `sendMessage(action, message)`: fire a message to the background service
worker.  The model records it in the message log.  (Only the badge-counter
update messages, whose payload is an integer, occur in the claims.) -/
def sendMessage (action : String) (msg : Int) (w : World) : World :=
  { w with messages := w.messages ++ [(action, msg)] }

/-- Model of `writeToSyncStorage({ badgeCounter: v })`: write the badge counter key in
the synced store, recorded in the write log. -/
def writeBadgeCounterToSync (v : Int) (w : World) : World :=
  { w with badgeCounter := some v, counterWrites := w.counterWrites ++ [v] }

/-- Model of `getSnoozeList(userId)`: read the whole synced store; if it has an entry
for `userId` (any array is truthy in JavaScript, `undefined` is not), return
it sorted by `notifyAt`, else return `[]`. -/
def getSnoozeList (userId : String) (w : World) : List SnoozeRecord :=
  match w.sync userId with
  | some storedList => sortByNotifyAt storedList
  | none => []

/-- Model of `setSnoozeList(userId, snoozeList)`: overwrite the user's entry in the
synced store verbatim. -/
def setSnoozeList (userId : String) (snoozeList : List SnoozeRecord) (w : World) : World :=
  { w with sync := fun k => if k = userId then some snoozeList else w.sync k }

/-- Model of `addSnooze(userId, snooze)`: read the list, push the record, persist, and
return the list sorted.  Two JavaScript details are preserved: the
`if (!snoozeList) snoozeList = []` branch is dead (`getSnoozeList` always
returns an array), and the in-place `.sort()` runs only after the awaited
`setSnoozeList`, so the persisted value is the unsorted pushed array. -/
def addSnooze (userId : String) (snooze : SnoozeRecord) (w : World) :
    List SnoozeRecord × World :=
  let snoozeList := getSnoozeList userId w
  let pushed := snoozeList ++ [snooze]
  let w1 := setSnoozeList userId pushed w
  (sortByNotifyAt pushed, w1)

/-- Model of `getBadgeCounter(initialValue = 0)`: read the `badgeCounter` key; if the
value is falsy (absent, or the number `0`), write `initialValue` back and
return the literal `0`; otherwise return the stored value without writing. -/
def getBadgeCounter (initialValue : Int) (w : World) : Int × World :=
  match w.badgeCounter with
  | none => (0, writeBadgeCounterToSync initialValue w)
  | some c => if c = 0 then (0, writeBadgeCounterToSync initialValue w) else (c, w)

/-- Model of `incrementBadgeCounter(increment = 1)`: read the counter (with the default
initial value 0), add `increment`, persist and return the new value. -/
def incrementBadgeCounter (increment : Int) (w : World) : Int × World :=
  let r := getBadgeCounter 0 w
  let newCounter := r.1 + increment
  (newCounter, writeBadgeCounterToSync newCounter r.2)

/-- Model of `removeSnooze(userId, snooze)`: read the list, keep the records whose `id`
differs from `snooze.id`, persist; then, if the `badgeCount` field of the
*argument* is truthy, decrement the badge counter and send the new value to
the background worker; finally return the freshly re-read list. -/
def removeSnooze (userId : String) (snooze : SnoozeRecord) (w : World) :
    List SnoozeRecord × World :=
  let snoozeList := getSnoozeList userId w
  let updatedList := snoozeList.filter (fun s => s.id != snooze.id)
  let w1 := setSnoozeList userId updatedList w
  let w2 :=
    if snooze.badgeCount then
      let r := incrementBadgeCounter (-1) w1
      sendMessage ACTION_UPDATE_BADGE_COUNTER r.1 r.2
    else w1
  (getSnoozeList userId w2, w2)

/-- Model of `updateSnooze(userId, wantedSnooze)`: read the list, map every record with
matching `id` to `wantedSnooze` (others unchanged), persist, and return the
freshly re-read list. -/
def updateSnooze (userId : String) (wantedSnooze : SnoozeRecord) (w : World) :
    List SnoozeRecord × World :=
  let snoozeList := getSnoozeList userId w
  let updatedList := snoozeList.map (fun currentSnooze =>
    if currentSnooze.id = wantedSnooze.id then wantedSnooze else currentSnooze)
  let w1 := setSnoozeList userId updatedList w
  (getSnoozeList userId w1, w1)

/-- JavaScript `String.prototype.startsWith`: `jsStartsWith s p` is true when
`p` is a prefix of `s`, computed on the character lists of the strings. -/
def jsStartsWith (s p : String) : Bool :=
  p.data.isPrefixOf s.data

/-- JavaScript `ToNumber` on a string, as far as the inputs of
`checkUrlAlreadySnoozed` need it: the empty string converts to `0`, a string
of decimal digits to its value, and anything else (every real URL) to `NaN`,
modelled as `none` — a `>` comparison against `NaN` is `false`. -/
def jsStringToNumber (s : String) : Option Int :=
  if s.data.isEmpty then some 0
  else if s.data.all (fun c => c.isDigit) then
    some (Int.ofNat (s.data.foldl (fun n c => 10 * n + (c.toNat - 48)) 0))
  else none

/-- Model of `checkUrlAlreadySnoozed(userId, url)`: search the list for a record whose
url stands in the coded relation with `url`.  The JavaScript condition is
`snoozeUrl.length > url` — the *length number* compared against the *url
string* — so `url` is coerced with `ToNumber`; for every non-numeric string
that yields `NaN` and the comparison is `false`, falling to the
`url.startsWith(snoozeUrl)` branch. -/
def checkUrlAlreadySnoozed (userId url : String) (w : World) : Bool :=
  let snoozeList := getSnoozeList userId w
  let snoozeFound := snoozeList.find? (fun snooze =>
    let snoozeUrl := snooze.url
    match jsStringToNumber url with
    | some n =>
      if (snoozeUrl.length : Int) > n then jsStartsWith snoozeUrl url
      else jsStartsWith url snoozeUrl
    | none => jsStartsWith url snoozeUrl)
  snoozeFound.isSome

/-- Model of `updateBadgeCounterUI()`: read the counter, render its decimal string when
positive and the empty string otherwise, and set the fixed secondary
background color. -/
def updateBadgeCounterUI (w : World) : World :=
  let r := getBadgeCounter 0 w
  let text := if r.1 > 0 then toString r.1 else ""
  { r.2 with badgeColor := some COLOR_SECONDARY, badgeText := text }

/-- A store with no entries at all: fresh synced storage. -/
def emptyWorld : World :=
  { sync := fun _ => none
    badgeCounter := none
    counterWrites := []
    messages := []
    badgeText := ""
    badgeColor := none }

/-- A store holding one user's list and optionally a badge counter, with empty
effect logs: the generic initial state of the concrete scenarios. -/
def worldWith (userId : String) (l : List SnoozeRecord) (c : Option Int) : World :=
  { sync := fun k => if k = userId then some l else none
    badgeCounter := c
    counterWrites := []
    messages := []
    badgeText := ""
    badgeColor := none }

/-! ### Helper lemmas about the comparator and the sort -/

theorem notifyLe_trans (a b c : SnoozeRecord) (hab : notifyLe a b = true)
    (hbc : notifyLe b c = true) : notifyLe a c = true := by
  simp only [notifyLe, decide_eq_true_eq] at *
  exact le_trans hab hbc

theorem notifyLe_total (a b : SnoozeRecord) : (notifyLe a b || notifyLe b a) = true := by
  simp only [notifyLe, Bool.or_eq_true, decide_eq_true_eq]
  exact le_total a.notifyAt b.notifyAt

theorem sortedByNotifyAt_iff_pairwise :
    ∀ l : List SnoozeRecord,
      sortedByNotifyAt l = true ↔ l.Pairwise (fun a b => notifyLe a b = true)
  | [] => by simp [sortedByNotifyAt]
  | [x] => by simp [sortedByNotifyAt]
  | x :: y :: rest => by
    rw [sortedByNotifyAt, Bool.and_eq_true, sortedByNotifyAt_iff_pairwise (y :: rest)]
    constructor
    · rintro ⟨hxy, hrest⟩
      refine List.Pairwise.cons ?_ hrest
      intro z hz
      rcases List.mem_cons.mp hz with h | h
      · exact h ▸ hxy
      · exact notifyLe_trans x y z hxy ((List.pairwise_cons.mp hrest).1 z h)
    · intro hp
      rcases List.pairwise_cons.mp hp with ⟨hx, hrest⟩
      exact ⟨hx y (by simp), hrest⟩

theorem insertByNotifyAt_perm (x : SnoozeRecord) (l : List SnoozeRecord) :
    (insertByNotifyAt x l).Perm (x :: l) := by
  induction l with
  | nil => exact List.Perm.refl [x]
  | cons y ys ih =>
    by_cases h : notifyLe x y = true
    · simp [insertByNotifyAt, h]
    · simp only [insertByNotifyAt, h, if_false, Bool.false_eq_true]
      exact (List.Perm.cons y ih).trans (List.Perm.swap x y ys)

theorem sortByNotifyAt_perm (l : List SnoozeRecord) : (sortByNotifyAt l).Perm l := by
  induction l with
  | nil => exact List.Perm.refl []
  | cons x xs ih =>
    exact (insertByNotifyAt_perm x (sortByNotifyAt xs)).trans (List.Perm.cons x ih)

theorem insertByNotifyAt_pairwise (x : SnoozeRecord) (l : List SnoozeRecord)
    (h : l.Pairwise (fun a b => notifyLe a b = true)) :
    (insertByNotifyAt x l).Pairwise (fun a b => notifyLe a b = true) := by
  induction l with
  | nil => simp [insertByNotifyAt]
  | cons y ys ih =>
    rcases List.pairwise_cons.mp h with ⟨hy, hys⟩
    by_cases hxy : notifyLe x y = true
    · simp only [insertByNotifyAt, hxy, if_true]
      refine List.pairwise_cons.mpr ⟨?_, h⟩
      intro z hz
      rcases List.mem_cons.mp hz with hzy | hz'
      · exact hzy ▸ hxy
      · exact notifyLe_trans x y z hxy (hy z hz')
    · simp only [insertByNotifyAt, hxy, if_false, Bool.false_eq_true]
      refine List.pairwise_cons.mpr ⟨?_, ih hys⟩
      intro z hz
      rcases List.mem_cons.mp ((insertByNotifyAt_perm x ys).mem_iff.mp hz) with hzx | hz'
      · subst hzx
        have htot := notifyLe_total z y
        simpa [hxy] using htot
      · exact hy z hz'

theorem sortByNotifyAt_sorted (l : List SnoozeRecord) :
    sortedByNotifyAt (sortByNotifyAt l) = true := by
  rw [sortedByNotifyAt_iff_pairwise]
  induction l with
  | nil => simp [sortByNotifyAt]
  | cons x xs ih => exact insertByNotifyAt_pairwise x (sortByNotifyAt xs) ih

theorem insertByNotifyAt_of_le (x : SnoozeRecord) (l : List SnoozeRecord)
    (h : ∀ z ∈ l, notifyLe x z = true) : insertByNotifyAt x l = x :: l := by
  cases l with
  | nil => rfl
  | cons y ys => simp [insertByNotifyAt, h y (by simp)]

theorem sortByNotifyAt_of_sorted : ∀ {l : List SnoozeRecord},
    sortedByNotifyAt l = true → sortByNotifyAt l = l := by
  intro l
  induction l with
  | nil => intro _; rfl
  | cons x xs ih =>
    intro h
    rcases List.pairwise_cons.mp ((sortedByNotifyAt_iff_pairwise _).mp h) with ⟨hx, hxs⟩
    simp only [sortByNotifyAt, ih ((sortedByNotifyAt_iff_pairwise xs).mpr hxs)]
    exact insertByNotifyAt_of_le x xs hx

theorem getSnoozeList_sorted (userId : String) (w : World) :
    sortedByNotifyAt (getSnoozeList userId w) = true := by
  unfold getSnoozeList
  cases w.sync userId with
  | none => rfl
  | some storedList => exact sortByNotifyAt_sorted storedList

theorem getSnoozeList_perm_stored (userId : String) (w : World)
    (storedList : List SnoozeRecord) (h : w.sync userId = some storedList) :
    (getSnoozeList userId w).Perm storedList := by
  unfold getSnoozeList
  rw [h]
  exact sortByNotifyAt_perm storedList

/-! ### Helper lemmas: which fields each badge operation touches -/

theorem getBadgeCounter_fst (i : Int) (w : World) :
    (getBadgeCounter i w).1 = w.badgeCounter.getD 0 := by
  unfold getBadgeCounter
  cases w.badgeCounter with
  | none => rfl
  | some c =>
    by_cases hc : c = 0
    · simp [hc]
    · simp [hc]

theorem getBadgeCounter_sync (i : Int) (w : World) :
    (getBadgeCounter i w).2.sync = w.sync := by
  unfold getBadgeCounter
  cases w.badgeCounter with
  | none => rfl
  | some c =>
    by_cases hc : c = 0
    · simp [hc, writeBadgeCounterToSync]
    · simp [hc]

theorem getBadgeCounter_messages (i : Int) (w : World) :
    (getBadgeCounter i w).2.messages = w.messages := by
  unfold getBadgeCounter
  cases w.badgeCounter with
  | none => rfl
  | some c =>
    by_cases hc : c = 0
    · simp [hc, writeBadgeCounterToSync]
    · simp [hc]

theorem incrementBadgeCounter_fst (d : Int) (w : World) :
    (incrementBadgeCounter d w).1 = w.badgeCounter.getD 0 + d := by
  simp only [incrementBadgeCounter]
  rw [getBadgeCounter_fst]

theorem incrementBadgeCounter_badgeCounter (d : Int) (w : World) :
    (incrementBadgeCounter d w).2.badgeCounter = some (w.badgeCounter.getD 0 + d) := by
  simp only [incrementBadgeCounter, writeBadgeCounterToSync]
  rw [getBadgeCounter_fst]

theorem incrementBadgeCounter_sync (d : Int) (w : World) :
    (incrementBadgeCounter d w).2.sync = w.sync := by
  simp only [incrementBadgeCounter, writeBadgeCounterToSync]
  exact getBadgeCounter_sync 0 w

theorem incrementBadgeCounter_messages (d : Int) (w : World) :
    (incrementBadgeCounter d w).2.messages = w.messages := by
  simp only [incrementBadgeCounter, writeBadgeCounterToSync]
  exact getBadgeCounter_messages 0 w

/-! ### Claim theorems: read operations and the badge counter -/

/-- C5: `getSnoozeList` never fails.  When the synced store has no entry for
the user it returns the empty sequence; when it holds `storedList` it returns
a permutation of `storedList` that is sorted ascending by `notifyAt`. -/
theorem getSnoozeList_spec (userId : String) (w : World) :
    (w.sync userId = none → getSnoozeList userId w = []) ∧
    (∀ storedList, w.sync userId = some storedList →
      (getSnoozeList userId w).Perm storedList ∧
      sortedByNotifyAt (getSnoozeList userId w) = true) := by
  refine ⟨fun h => ?_,
    fun l h => ⟨getSnoozeList_perm_stored userId w l h, getSnoozeList_sorted userId w⟩⟩
  simp [getSnoozeList, h]

/-- Witness for C5: a fresh store yields `[]`; a store holding a two-element
list yields a sorted permutation of it. -/
theorem getSnoozeList_spec_witness :
    getSnoozeList "u" emptyWorld = [] ∧
    ((getSnoozeList "u" (worldWith "u"
        [⟨"1", "https://a.com", 200, false⟩, ⟨"2", "https://b.com", 100, false⟩] none)).Perm
      [⟨"1", "https://a.com", 200, false⟩, ⟨"2", "https://b.com", 100, false⟩] ∧
     sortedByNotifyAt (getSnoozeList "u" (worldWith "u"
        [⟨"1", "https://a.com", 200, false⟩, ⟨"2", "https://b.com", 100, false⟩] none)) = true) :=
  ⟨(getSnoozeList_spec "u" emptyWorld).1 rfl,
   (getSnoozeList_spec "u" (worldWith "u"
      [⟨"1", "https://a.com", 200, false⟩, ⟨"2", "https://b.com", 100, false⟩] none)).2 _ rfl⟩

/-- C8: `incrementBadgeCounter` reads the stored counter (0 when the key is
absent — and the falsy stored value 0 also reads as 0, so the read value is
`getD 0`), adds the delta, persists and returns the sum, with no floor at
zero; in particular a first `increment(1)` on a fresh store yields 1, a
following `increment(-1)` yields 0, and `increment(-1)` on a fresh store goes
negative. -/
theorem incrementBadgeCounter_spec :
    (∀ (w : World) (d : Int),
      (incrementBadgeCounter d w).1 = w.badgeCounter.getD 0 + d ∧
      (incrementBadgeCounter d w).2.badgeCounter = some (w.badgeCounter.getD 0 + d)) ∧
    (incrementBadgeCounter 1 emptyWorld).1 = 1 ∧
    (incrementBadgeCounter (-1) (incrementBadgeCounter 1 emptyWorld).2).1 = 0 ∧
    (incrementBadgeCounter (-1) emptyWorld).1 = -1 :=
  ⟨fun w d => ⟨incrementBadgeCounter_fst d w, incrementBadgeCounter_badgeCounter d w⟩,
   rfl, rfl, rfl⟩

/-- C9: `updateBadgeCounterUI` renders the empty badge text when the counter
read from the store is ≤ 0 and the decimal string of the counter otherwise,
and always applies the fixed secondary background color. -/
theorem updateBadgeCounterUI_spec (w : World) :
    (updateBadgeCounterUI w).badgeText =
      (if w.badgeCounter.getD 0 > 0 then toString (w.badgeCounter.getD 0) else "") ∧
    (updateBadgeCounterUI w).badgeColor = some COLOR_SECONDARY := by
  constructor
  · simp only [updateBadgeCounterUI]
    rw [getBadgeCounter_fst]
  · simp only [updateBadgeCounterUI]

/-- C10: the badge-counter read writes back not only when the key is absent
but also when the stored value is 0 (both are falsy): in either case it
persists the initial value 0, appends a write to the log, and returns 0; only
a nonzero stored value is returned with the store and logs untouched. -/
theorem getBadgeCounter_initializes (w : World) :
    ((w.badgeCounter = none ∨ w.badgeCounter = some 0) →
      getBadgeCounter 0 w =
        (0, { w with badgeCounter := some 0, counterWrites := w.counterWrites ++ [0] })) ∧
    (∀ c : Int, c ≠ 0 → w.badgeCounter = some c → getBadgeCounter 0 w = (c, w)) := by
  constructor
  · rintro (h | h) <;> simp [getBadgeCounter, h, writeBadgeCounterToSync]
  · intro c hc h
    simp [getBadgeCounter, h, hc]

/-- Witness for C10: an absent counter and a stored 0 both trigger the
write-back of 0; a stored 3 is returned with the world unchanged. -/
theorem getBadgeCounter_initializes_witness :
    getBadgeCounter 0 emptyWorld =
      (0, { emptyWorld with badgeCounter := some 0, counterWrites := [0] }) ∧
    getBadgeCounter 0 (worldWith "u" [] (some 0)) =
      (0, { worldWith "u" [] (some 0) with badgeCounter := some 0, counterWrites := [0] }) ∧
    getBadgeCounter 0 (worldWith "u" [] (some 3)) = (3, worldWith "u" [] (some 3)) :=
  ⟨(getBadgeCounter_initializes emptyWorld).1 (Or.inl rfl),
   (getBadgeCounter_initializes (worldWith "u" [] (some 0))).1 (Or.inr rfl),
   (getBadgeCounter_initializes (worldWith "u" [] (some 3))).2 3 (by decide) rfl⟩

/-! ### Helper lemmas about removeSnooze -/

theorem getSnoozeList_some (userId : String) (w : World) (l : List SnoozeRecord)
    (h : w.sync userId = some l) : getSnoozeList userId w = sortByNotifyAt l := by
  unfold getSnoozeList
  rw [h]

theorem removeSnooze_snd_sync (userId : String) (snooze : SnoozeRecord) (w : World) :
    (removeSnooze userId snooze w).2.sync = fun k =>
      if k = userId then
        some ((getSnoozeList userId w).filter (fun s => s.id != snooze.id))
      else w.sync k := by
  simp only [removeSnooze]
  by_cases hb : snooze.badgeCount
  · simp only [hb, if_true, sendMessage]
    rw [incrementBadgeCounter_sync]
    simp [setSnoozeList]
  · simp [hb, setSnoozeList]

theorem removeSnooze_badge_true (userId : String) (snooze : SnoozeRecord) (w : World)
    (hb : snooze.badgeCount = true) :
    (removeSnooze userId snooze w).2.badgeCounter = some (w.badgeCounter.getD 0 - 1) ∧
    (removeSnooze userId snooze w).2.messages =
      w.messages ++ [(ACTION_UPDATE_BADGE_COUNTER, w.badgeCounter.getD 0 - 1)] := by
  simp only [removeSnooze, hb, if_true, sendMessage]
  constructor
  · rw [incrementBadgeCounter_badgeCounter]
    simp [setSnoozeList, sub_eq_add_neg]
  · rw [incrementBadgeCounter_messages, incrementBadgeCounter_fst]
    simp [setSnoozeList, sub_eq_add_neg]

theorem getSnoozeList_after_removeSnooze (userId : String) (snooze : SnoozeRecord)
    (w : World) :
    getSnoozeList userId ((removeSnooze userId snooze w).2) =
      sortByNotifyAt ((getSnoozeList userId w).filter (fun s => s.id != snooze.id)) := by
  refine getSnoozeList_some userId _ _ ?_
  rw [removeSnooze_snd_sync]
  simp

theorem removeSnooze_badge_false (userId : String) (snooze : SnoozeRecord) (w : World)
    (hb : snooze.badgeCount = false) :
    (removeSnooze userId snooze w).2.badgeCounter = w.badgeCounter ∧
    (removeSnooze userId snooze w).2.messages = w.messages ∧
    (removeSnooze userId snooze w).2.counterWrites = w.counterWrites := by
  simp [removeSnooze, hb, setSnoozeList]

/-! ### Claims about removeSnooze -/

/-- C1 counterexample: the stored record with id "1" has `badgeCount` set and
the counter is at 3, but `remove` is called with an argument record carrying
`badgeCount: false`.  The claim demands the counter drop to 2 and a
badge-update message; the code removes the record yet leaves the counter at 3
and sends no message, because it tests `snooze.badgeCount` of the *argument*,
not of the stored record matched by id. -/
theorem removeSnooze_ignores_stored_badgeCount :
    ((removeSnooze "u" ⟨"1", "https://a.com", 100, false⟩
        (worldWith "u" [⟨"1", "https://a.com", 100, true⟩] (some 3))).2.sync "u"
      = some []) ∧
    (removeSnooze "u" ⟨"1", "https://a.com", 100, false⟩
        (worldWith "u" [⟨"1", "https://a.com", 100, true⟩] (some 3))).2.badgeCounter
      = some 3 ∧
    (removeSnooze "u" ⟨"1", "https://a.com", 100, false⟩
        (worldWith "u" [⟨"1", "https://a.com", 100, true⟩] (some 3))).2.messages
      = [] := by
  refine ⟨?_, ?_, ?_⟩ <;> decide

/-- C1 amended: `remove` excludes from the persisted list every read record
whose id matches, and it decrements the badge counter by 1 and sends the new
value to the background worker if and only if the `badgeCount` field of the
record *passed as argument* is set (not the stored record matched by id); the
scenario `remove(u, {id:1, badgeCount:true})` with the counter at 3 is the
`true` case: counter 2 and a badge-update message with payload 2. -/
theorem removeSnooze_spec (userId : String) (snooze : SnoozeRecord) (w : World) :
    (removeSnooze userId snooze w).2.sync userId =
      some ((getSnoozeList userId w).filter (fun s => s.id != snooze.id)) ∧
    (snooze.badgeCount = true →
      (removeSnooze userId snooze w).2.badgeCounter = some (w.badgeCounter.getD 0 - 1) ∧
      (removeSnooze userId snooze w).2.messages =
        w.messages ++ [(ACTION_UPDATE_BADGE_COUNTER, w.badgeCounter.getD 0 - 1)]) ∧
    (snooze.badgeCount = false →
      (removeSnooze userId snooze w).2.badgeCounter = w.badgeCounter ∧
      (removeSnooze userId snooze w).2.messages = w.messages) := by
  refine ⟨?_, removeSnooze_badge_true userId snooze w,
    fun hb => ⟨(removeSnooze_badge_false userId snooze w hb).1,
      (removeSnooze_badge_false userId snooze w hb).2.1⟩⟩
  rw [removeSnooze_snd_sync]
  simp

/-- Witness for C1 (amended), at the claim's own scenario: removing
`{id:1, badgeCount:true}` with the counter at 3 empties the list, leaves the
counter at 2 and sends one badge-update message with payload 2. -/
theorem removeSnooze_spec_witness :
    ((removeSnooze "u" ⟨"1", "https://a.com", 100, true⟩
        (worldWith "u" [⟨"1", "https://a.com", 100, true⟩] (some 3))).2.sync "u"
      = some []) ∧
    (removeSnooze "u" ⟨"1", "https://a.com", 100, true⟩
        (worldWith "u" [⟨"1", "https://a.com", 100, true⟩] (some 3))).2.badgeCounter
      = some 2 ∧
    (removeSnooze "u" ⟨"1", "https://a.com", 100, true⟩
        (worldWith "u" [⟨"1", "https://a.com", 100, true⟩] (some 3))).2.messages
      = [(ACTION_UPDATE_BADGE_COUNTER, 2)] := by
  have h := removeSnooze_spec "u" ⟨"1", "https://a.com", 100, true⟩
    (worldWith "u" [⟨"1", "https://a.com", 100, true⟩] (some 3))
  refine ⟨?_, ?_, ?_⟩
  · rw [h.1]; decide
  · rw [(h.2.1 rfl).1]; decide
  · rw [(h.2.1 rfl).2]; decide

/-- C7: removing an id that occurs nowhere in the user's stored list leaves
the list observable through `getSnoozeList` unchanged: same elements, same
order. -/
theorem removeSnooze_unknown_id (userId : String) (snooze : SnoozeRecord) (w : World)
    (h : ∀ s ∈ (w.sync userId).getD [], s.id ≠ snooze.id) :
    getSnoozeList userId ((removeSnooze userId snooze w).2) = getSnoozeList userId w := by
  have hmem : ∀ s ∈ getSnoozeList userId w, s.id ≠ snooze.id := by
    intro s hs
    cases hsync : w.sync userId with
    | none => simp [getSnoozeList, hsync] at hs
    | some storedList =>
      refine h s ?_
      rw [hsync]
      exact ((getSnoozeList_perm_stored userId w storedList hsync).mem_iff).mp hs
  have hfilter : (getSnoozeList userId w).filter (fun s => s.id != snooze.id)
      = getSnoozeList userId w :=
    List.filter_eq_self.mpr (fun s hs => bne_iff_ne.mpr (hmem s hs))
  rw [getSnoozeList_after_removeSnooze, hfilter]
  exact sortByNotifyAt_of_sorted (getSnoozeList_sorted userId w)

/-- Witness for C7: removing id "3", absent from the stored two-element list,
leaves `getSnoozeList` at the sorted stored list. -/
theorem removeSnooze_unknown_id_witness :
    (∀ s ∈ ((worldWith "u"
        [⟨"1", "https://a.com", 200, false⟩, ⟨"2", "https://b.com", 100, false⟩] none).sync
          "u").getD [],
      s.id ≠ "3") ∧
    getSnoozeList "u" ((removeSnooze "u" ⟨"3", "https://c.com", 0, true⟩
        (worldWith "u"
          [⟨"1", "https://a.com", 200, false⟩, ⟨"2", "https://b.com", 100, false⟩] none)).2)
      = getSnoozeList "u" (worldWith "u"
          [⟨"1", "https://a.com", 200, false⟩, ⟨"2", "https://b.com", 100, false⟩] none) :=
  ⟨by decide, removeSnooze_unknown_id "u" ⟨"3", "https://c.com", 0, true⟩
    (worldWith "u" [⟨"1", "https://a.com", 200, false⟩, ⟨"2", "https://b.com", 100, false⟩] none)
    (by decide)⟩

/-! ### Helper lemmas about addSnooze and updateSnooze -/

theorem addSnooze_fst (userId : String) (snooze : SnoozeRecord) (w : World) :
    (addSnooze userId snooze w).1 =
      sortByNotifyAt (getSnoozeList userId w ++ [snooze]) := rfl

theorem addSnooze_snd_sync (userId : String) (snooze : SnoozeRecord) (w : World) :
    (addSnooze userId snooze w).2.sync = fun k =>
      if k = userId then some (getSnoozeList userId w ++ [snooze]) else w.sync k := rfl

theorem updateSnooze_snd_sync (userId : String) (r : SnoozeRecord) (w : World) :
    (updateSnooze userId r w).2.sync = fun k =>
      if k = userId then
        some ((getSnoozeList userId w).map (fun s => if s.id = r.id then r else s))
      else w.sync k := rfl

theorem map_eq_self_of {α : Type} (l : List α) (f : α → α) (h : ∀ a ∈ l, f a = a) :
    l.map f = l := by
  induction l with
  | nil => rfl
  | cons x xs ih =>
    simp only [List.map_cons, h x (by simp)]
    rw [ih (fun a ha => h a (by simp [ha]))]

/-! ### Claims about the sorting invariant, addSnooze and updateSnooze -/

/-- C3 counterexample: `add` persists the sorted read list with the new record
appended at the end — `add(u, notifyAt 50)` over a stored `notifyAt 100`
persists `[100, 50]`, unsorted — and `update` replaces a record's `notifyAt`
in place — updating id "1" to `notifyAt 300` over stored `[100, 200]`
persists `[300, 200]`, unsorted.  Both refute the invariant that the
persisted list is sorted after any mutating operation. -/
theorem mutations_persist_unsorted_lists :
    ((addSnooze "u" ⟨"2", "https://b.com", 50, false⟩
        (worldWith "u" [⟨"1", "https://a.com", 100, false⟩] none)).2.sync "u" =
      some [⟨"1", "https://a.com", 100, false⟩, ⟨"2", "https://b.com", 50, false⟩]) ∧
    sortedByNotifyAt
      [⟨"1", "https://a.com", 100, false⟩, ⟨"2", "https://b.com", 50, false⟩] = false ∧
    ((updateSnooze "u" ⟨"1", "https://a.com", 300, false⟩
        (worldWith "u"
          [⟨"1", "https://a.com", 100, false⟩, ⟨"2", "https://b.com", 200, false⟩]
          none)).2.sync "u" =
      some [⟨"1", "https://a.com", 300, false⟩, ⟨"2", "https://b.com", 200, false⟩]) ∧
    sortedByNotifyAt
      [⟨"1", "https://a.com", 300, false⟩, ⟨"2", "https://b.com", 200, false⟩] = false := by
  refine ⟨?_, ?_, ?_, ?_⟩ <;> decide

/-- C3 amended: every list *observed* through `getSnoozeList` and every list
*returned* by `add`, `remove` or `update` is sorted ascending by `notifyAt`
(because reads sort), and `remove` also persists a sorted list; but `add`
persists the read list with the record appended and `update` persists the
read list with matching records replaced, which need not be sorted. -/
theorem sorted_where_the_code_sorts (userId : String)
    (snooze wantedSnooze : SnoozeRecord) (w : World) :
    sortedByNotifyAt (getSnoozeList userId w) = true ∧
    sortedByNotifyAt (addSnooze userId snooze w).1 = true ∧
    sortedByNotifyAt (removeSnooze userId snooze w).1 = true ∧
    sortedByNotifyAt (updateSnooze userId wantedSnooze w).1 = true ∧
    (removeSnooze userId snooze w).2.sync userId =
      some ((getSnoozeList userId w).filter (fun s => s.id != snooze.id)) ∧
    sortedByNotifyAt ((getSnoozeList userId w).filter (fun s => s.id != snooze.id))
      = true := by
  refine ⟨getSnoozeList_sorted userId w, ?_, ?_, ?_, ?_, ?_⟩
  · rw [addSnooze_fst]
    exact sortByNotifyAt_sorted _
  · exact getSnoozeList_sorted userId ((removeSnooze userId snooze w).2)
  · exact getSnoozeList_sorted userId ((updateSnooze userId wantedSnooze w).2)
  · rw [removeSnooze_snd_sync]
    simp
  · rw [sortedByNotifyAt_iff_pairwise]
    exact List.Pairwise.filter _
      ((sortedByNotifyAt_iff_pairwise _).mp (getSnoozeList_sorted userId w))

/-- C4 counterexample: adding the same record twice (the code has no
uniqueness check) makes `getSnoozeList` contain it twice, so "exactly one
record equal to r" fails for the second `add`. -/
theorem addSnooze_duplicate_not_unique :
    (getSnoozeList "u" ((addSnooze "u" ⟨"1", "https://a.com", 100, false⟩
        ((addSnooze "u" ⟨"1", "https://a.com", 100, false⟩ emptyWorld).2)).2)).count
      ⟨"1", "https://a.com", 100, false⟩ = 2 := by
  decide

/-- C4 amended: `add` appends `r` to the read list (the empty list when
nothing is stored) and persists it without any uniqueness check, so the
number of records equal to `r` seen by `getSnoozeList` grows by exactly one —
in particular it is exactly one when no stored record equalled `r` before. -/
theorem addSnooze_adds_one_copy (userId : String) (r : SnoozeRecord) (w : World) :
    (addSnooze userId r w).2.sync userId = some (getSnoozeList userId w ++ [r]) ∧
    (getSnoozeList userId ((addSnooze userId r w).2)).count r
      = (getSnoozeList userId w).count r + 1 := by
  have hsync : (addSnooze userId r w).2.sync userId
      = some (getSnoozeList userId w ++ [r]) := by
    rw [addSnooze_snd_sync]
    simp
  refine ⟨hsync, ?_⟩
  rw [getSnoozeList_some userId _ _ hsync, (sortByNotifyAt_perm _).count_eq]
  simp

/-- C6 counterexample: with the reachable unsorted stored list
`[notifyAt 100, notifyAt 50]` (exactly what `add` persists) and an id "3"
matching no record, `update` persists the re-sorted list `[50, 100]`, not the
stored list unchanged as the claim requires. -/
theorem updateSnooze_resorts_stored :
    ((updateSnooze "u" ⟨"3", "https://c.com", 0, false⟩
        (worldWith "u"
          [⟨"1", "https://a.com", 100, false⟩, ⟨"2", "https://b.com", 50, false⟩]
          none)).2.sync "u" =
      some [⟨"2", "https://b.com", 50, false⟩, ⟨"1", "https://a.com", 100, false⟩]) ∧
    ((updateSnooze "u" ⟨"3", "https://c.com", 0, false⟩
        (worldWith "u"
          [⟨"1", "https://a.com", 100, false⟩, ⟨"2", "https://b.com", 50, false⟩]
          none)).2.sync "u" ≠
      some [⟨"1", "https://a.com", 100, false⟩, ⟨"2", "https://b.com", 50, false⟩]) := by
  refine ⟨?_, ?_⟩ <;> decide

/-- C6 amended: `update` operates on the sorted *read* view of the stored
list: it persists that view with every record whose id equals `record.id`
replaced by `record` (all others unchanged) and returns the freshly re-read
list; when no read record matches the id, the read view itself is persisted
and returned unchanged. -/
theorem updateSnooze_spec (userId : String) (r : SnoozeRecord) (w : World) :
    (updateSnooze userId r w).2.sync userId =
      some ((getSnoozeList userId w).map (fun s => if s.id = r.id then r else s)) ∧
    (updateSnooze userId r w).1 = getSnoozeList userId ((updateSnooze userId r w).2) ∧
    ((∀ s ∈ getSnoozeList userId w, s.id ≠ r.id) →
      (updateSnooze userId r w).2.sync userId = some (getSnoozeList userId w) ∧
      (updateSnooze userId r w).1 = getSnoozeList userId w) := by
  have hsync : (updateSnooze userId r w).2.sync userId =
      some ((getSnoozeList userId w).map (fun s => if s.id = r.id then r else s)) := by
    rw [updateSnooze_snd_sync]
    simp
  refine ⟨hsync, rfl, fun h => ?_⟩
  have hmap : (getSnoozeList userId w).map (fun s => if s.id = r.id then r else s)
      = getSnoozeList userId w :=
    map_eq_self_of _ _ (fun s hs => if_neg (h s hs))
  rw [hmap] at hsync
  refine ⟨hsync, ?_⟩
  show getSnoozeList userId ((updateSnooze userId r w).2) = getSnoozeList userId w
  rw [getSnoozeList_some userId _ _ hsync]
  exact sortByNotifyAt_of_sorted (getSnoozeList_sorted userId w)

/-- Witness for C6 (amended): updating with the unknown id "3" over a sorted
stored list leaves both the persisted entry and the returned list at the read
view. -/
theorem updateSnooze_spec_witness :
    (updateSnooze "u" ⟨"3", "https://c.com", 0, false⟩
        (worldWith "u"
          [⟨"2", "https://b.com", 50, false⟩, ⟨"1", "https://a.com", 100, false⟩]
          none)).2.sync "u" =
      some (getSnoozeList "u" (worldWith "u"
        [⟨"2", "https://b.com", 50, false⟩, ⟨"1", "https://a.com", 100, false⟩] none)) ∧
    (updateSnooze "u" ⟨"3", "https://c.com", 0, false⟩
        (worldWith "u"
          [⟨"2", "https://b.com", 50, false⟩, ⟨"1", "https://a.com", 100, false⟩]
          none)).1 =
      getSnoozeList "u" (worldWith "u"
        [⟨"2", "https://b.com", 50, false⟩, ⟨"1", "https://a.com", 100, false⟩] none) :=
  (updateSnooze_spec "u" ⟨"3", "https://c.com", 0, false⟩
    (worldWith "u"
      [⟨"2", "https://b.com", 50, false⟩, ⟨"1", "https://a.com", 100, false⟩]
      none)).2.2 (by decide)

/-- C2 at the failing input (the claim is the spec's intent and the code has a
slip): `snoozeUrl.length > url` compares the stored url's *length* with the
query url *string*, which JavaScript coerces with `ToNumber`; every real URL
coerces to `NaN`, every comparison with `NaN` is false, so the branch that
would test the longer stored url `"https://a.com/x"` as starting with the
query `"https://a.com"` is unreachable and the function answers `false` where
the claim requires `true`.  The reverse direction (stored url a prefix of the
query) still answers `true`. -/
theorem checkUrlAlreadySnoozed_at_failing_input :
    checkUrlAlreadySnoozed "u" "https://a.com"
      (worldWith "u" [⟨"1", "https://a.com/x", 100, false⟩] none) = false ∧
    checkUrlAlreadySnoozed "u" "https://a.com/x"
      (worldWith "u" [⟨"1", "https://a.com", 100, false⟩] none) = true ∧
    jsStringToNumber "https://a.com" = none := by
  refine ⟨?_, ?_, ?_⟩ <;> decide
